import Mathlib

/-!
Shallow embedding of the Gwen sales-agent service (src/app.js, the current
"Version 14.0" implementation at the top of the file; the near-identical
historical revisions concatenated below it are out of scope of the spec).

Conventions of the embedding:
* JavaScript strings are Lean `String`s; `str.includes(sub)` is `jsIncludes`,
  `toLowerCase` is `jsToLower`, falsiness of a possibly-missing string
  field (`undefined` or `""`) is `jsTruthy` on `Option String`.
* Numeric JSON fields that the source passes through `parseInt`/`parseFloat`
  are modelled as already-parsed `Option Int` / `Option Rat` values (`none`
  standing for a missing field or a NaN parse); `parseInt(x) || 0` is then
  `Option.getD x 0`.  Money amounts are rationals (the source uses JS floats;
  float rounding is immaterial to every property proved here).
* External effects are oracles: the Shopify HTTP fetch is an
  `Option ShopifyData` argument, the OpenAI call is a `ModelMessage` argument,
  `Date.now()` is an `Int` argument, `Math.random` is a `Nat` argument.
* The product catalog, inventory snapshot and bundle tables are data files not
  present in the repository, so they are parameters (`Env`).
-/

namespace Gwen

/-- JS `haystack.includes(needle)` (substring test). -/
def jsIncludes (hay sub : String) : Bool :=
  hay.toList.tails.any (fun t => sub.toList.isPrefixOf t)

/-- Truthiness of a possibly-missing JS string (`undefined` and `""` are falsy). -/
def jsTruthy : Option String → Bool
  | some s => s ≠ ""
  | none => false

/-- Truthiness of a possibly-missing JS number (`undefined`, `NaN` and `0` are falsy). -/
def jsTruthyInt : Option Int → Bool
  | some n => n ≠ 0
  | none => false

/-- JS `x?.f || ''` for a string field. -/
def jsStr (o : Option String) : String := o.getD ""

/-- JS `x || d` for a string `x` (empty string falls through to the default). -/
def jsOrStr (o : Option String) (d : String) : String :=
  match o with
  | some s => if s ≠ "" then s else d
  | none => d

/-- JS `toLowerCase` (character-wise; structural so that proofs can evaluate). -/
def jsToLower (s : String) : String := String.mk (s.data.map Char.toLower)

/-- JS `trim` (strip leading/trailing whitespace). -/
def jsTrim (s : String) : String :=
  String.mk (((s.data.dropWhile Char.isWhitespace).reverse.dropWhile Char.isWhitespace).reverse)

/-- JS `split(',')` on a comma. -/
def splitCommaAux : List Char → List Char → List (List Char)
  | [], acc => [acc.reverse]
  | c :: rest, acc =>
    if c == ',' then acc.reverse :: splitCommaAux rest []
    else splitCommaAux rest (c :: acc)

def jsSplitComma (s : String) : List String := (splitCommaAux s.data []).map String.mk

/-- Render a rational money amount like JS `Number.prototype.toFixed(2)`:
round to cents (computed as `⌊q*100 + 1/2⌋` directly on the numerator and
denominator) and print with two decimals. -/
def fmtFixed2 (q : ℚ) : String :=
  let cents : Int := Int.fdiv (200 * q.num + (q.den : Int)) (2 * (q.den : Int))
  let sign := if cents < 0 then "-" else ""
  let a := cents.natAbs
  let r := a % 100
  sign ++ toString (a / 100) ++ "." ++ (if r < 10 then "0" ++ toString r else toString r)

/-! ## Data model (catalog, inventory snapshot, bundle tables) -/

/-- One entry of a product's `materials_and_care` array. -/
structure MaterialCare where
  name : String
  warranty : Option String := none
  pros : Option String := none
deriving Repr, DecidableEq

/-- A product record of `product_knowledge_center.json` as used by the service
(fields the code reads, pre-flattened from the nested JSON). -/
structure Product where
  /-- `product_identity.sku` (nonempty: `productIndex.bySku` only indexes truthy SKUs). -/
  sku : String
  /-- `product_identity.product_name`. -/
  name : Option String := none
  /-- `parseFloat(product_identity.price_gbp)` (`none` = missing/NaN). -/
  priceGbp : Option ℚ := none
  /-- `product_identity.image_url`. -/
  imageUrl : Option String := none
  /-- `description_and_category.primary_category`. -/
  primaryCategory : Option String := none
  /-- `description_and_category.material_type`. -/
  materialType : Option String := none
  /-- `description_and_category.taxonomy_type`. -/
  taxonomyType : Option String := none
  /-- `parseInt(specifications.seats)` (`none` = missing/NaN). -/
  seats : Option Int := none
  /-- `specifications.assembly.required` truthiness. -/
  assemblyRequired : Bool := false
  /-- `logistics_and_inventory.inventory`: `none` when the inventory object is
  absent, otherwise `some available` where `available` is the numeric
  `available` field (`none` inside = field absent). -/
  pkcInventory : Option (Option Int) := none
  materialsAndCare : List MaterialCare := []
  /-- `related_products.matching_cover_sku`. -/
  matchingCoverSku : Option String := none
  /-- `product_identity.product_family`. -/
  productFamily : Option String := none
deriving Repr, DecidableEq

/-- One record of `Inventory_Data.json`; `available` is `parseInt(raw) || 0`. -/
structure InvRecord where
  sku : String
  available : Int
deriving Repr, DecidableEq

/-- One record of `bundle_items.json`. -/
structure BundleItem where
  bundleId : String
  productSku : String
  productQty : Nat
deriving Repr, DecidableEq

/-- One record of `bundle_suggestions.json`. -/
structure BundleSuggestion where
  bundleId : String
  name : String
deriving Repr, DecidableEq

/-- The static data the service loads at startup. `products` is
`Object.values(productIndex.bySku)` in insertion order. -/
structure Env where
  products : List Product := []
  inventory : List InvRecord := []
  bundleItems : List BundleItem := []
  bundleSuggestions : List BundleSuggestion := []
deriving Repr

/-- `productIndex.bySku[sku]`. -/
def Env.findProduct (env : Env) (sku : String) : Option Product :=
  env.products.find? (fun p => p.sku == sku)

/-! ## Stock resolver (`getProductStock`, `isInStock`) -/

/-- `inventoryData.find(i => i.sku === sku)`. -/
def Env.findInv (env : Env) (sku : String) : Option InvRecord :=
  env.inventory.find? (fun i => i.sku == sku)

/-- `product?.logistics_and_inventory?.inventory` for the indexed product
(`none` when the product or its inventory object is absent). -/
def Env.pkcInvOf (env : Env) (sku : String) : Option (Option Int) :=
  match env.findProduct sku with
  | some p => p.pkcInventory
  | none => none

/-- `getProductStock` (src/app.js:175): merge the inventory snapshot and the
embedded-catalog count, defaulting to 100 when neither source has a record. -/
def getProductStock (env : Env) (sku : String) : Int :=
  let invRecord := env.findInv sku
  let stockFromInventory : Int :=
    match invRecord with
    | some r => r.available
    | none => 0
  let pkcInv := env.pkcInvOf sku
  let stockFromPKC : Int :=
    match pkcInv with
    | some inv =>
      match inv with
      | some v => if v ≠ 0 then v else 0
      | none => 0
    | none => 0
  let finalStock := max stockFromInventory stockFromPKC
  if stockFromInventory = 0 ∧ stockFromPKC = 0 ∧ invRecord = none ∧ pkcInv = none then
    100
  else
    finalStock

/-- `isInStock` (src/app.js:207). -/
def isInStock (env : Env) (sku : String) : Bool :=
  decide (getProductStock env sku > 0)

/-! ## Search/filter engine (`searchProducts`, src/app.js:215) -/

/-- The argument object of `searchProducts` / the `search_products` tool. -/
structure Criteria where
  furnitureType : Option String := none
  material : Option String := none
  seatCount : Option Int := none
  productName : Option String := none
  maxResults : Nat := 5
deriving Repr, DecidableEq

/-- The lightweight projection `searchProducts` returns. -/
structure ProductLite where
  sku : String
  name : Option String
  category : Option String
  seats : Option Int
  material : Option String
deriving Repr, DecidableEq

/-- `parseInt(p.specifications?.seats) || 0`. -/
def seatsOf (p : Product) : Int := p.seats.getD 0

/-- The furniture-type predicate of stage 2 of the search pipeline. -/
def typeFilter (type : String) (p : Product) : Bool :=
  let taxonomy := jsToLower (jsStr p.taxonomyType)
  let category := jsToLower (jsStr p.primaryCategory)
  let name := jsToLower (jsStr p.name)
  if type == "dining" then
    jsIncludes taxonomy "dining" || jsIncludes category "dining" || jsIncludes name "dining"
  else if type == "lounge" then
    jsIncludes taxonomy "lounge" || jsIncludes category "lounge" || jsIncludes name "lounge" ||
      jsIncludes name "sofa"
  else if type == "corner" then
    jsIncludes taxonomy "corner" || jsIncludes name "corner"
  else if type == "lounger" then
    jsIncludes taxonomy "lounger" || jsIncludes name "lounger" || jsIncludes name "sun"
  else
    true

/-- Stages 1-3 of the pipeline: require SKU and category, then the
furniture-type filter, then the material filter. -/
def preSeatCandidates (env : Env) (c : Criteria) : List Product :=
  let filtered0 := env.products.filter (fun p => p.sku ≠ "" && jsTruthy p.primaryCategory)
  let filtered1 :=
    match c.furnitureType with
    | some ft => if ft ≠ "" then filtered0.filter (typeFilter (jsToLower ft)) else filtered0
    | none => filtered0
  match c.material with
  | some m =>
    if m ≠ "" then
      let mat := jsToLower m
      filtered1.filter (fun p =>
        jsIncludes (jsToLower (jsStr p.materialType)) mat || jsIncludes (jsToLower (jsStr p.name)) mat)
    else filtered1
  | none => filtered1

/-- `seats && seats >= target` for the strict seat filter. -/
def seatMeets (target : Int) (p : Product) : Bool :=
  match p.seats with
  | some s => s ≠ 0 && s ≥ target
  | none => false

/-- `seats && seats > 0` for the capacity fallback. -/
def seatsPos (p : Product) : Bool :=
  match p.seats with
  | some s => s ≠ 0 && s > 0
  | none => false

/-- Stage 4 of the pipeline: the seat-count filter with capacity fallback
(keep products meeting the minimum; if none do, keep the products within one
seat of the largest available seat count).  JS `Array.prototype.sort` with a
numeric key comparator is a stable sort; `List.insertionSort` is the (unique)
stable sort for the same total preorder. -/
def seatStage (filtered : List Product) (seatCount : Option Int) : List Product :=
  match seatCount with
  | none => filtered
  | some target =>
    if target = 0 then filtered
    else
      let matchingProducts := filtered.filter (seatMeets target)
      if matchingProducts.length > 0 then
        matchingProducts.insertionSort (fun a b => seatsOf a ≤ seatsOf b)
      else
        let productsWithSeats :=
          (filtered.filter seatsPos).insertionSort (fun a b => seatsOf b ≤ seatsOf a)
        match productsWithSeats with
        | [] => []
        | top :: _ =>
          let maxSeats := seatsOf top
          productsWithSeats.filter (fun p =>
            match p.seats with
            | some s => s ≥ maxSeats - 1
            | none => false)

/-- Stage 5: the free-text name/SKU filter. -/
def nameStage (filtered : List Product) (productName : Option String) : List Product :=
  match productName with
  | some pn =>
    if pn ≠ "" then
      let search := jsToLower pn
      filtered.filter (fun p =>
        jsIncludes (jsToLower (jsStr p.name)) search || jsIncludes (jsToLower p.sku) search)
    else filtered
  | none => filtered

/-- `searchProducts` (src/app.js:215): the full pipeline ending in the
mandatory stock filter, truncation and projection. -/
def searchProducts (env : Env) (c : Criteria) : List ProductLite :=
  let filtered := preSeatCandidates env c
  let filtered := seatStage filtered c.seatCount
  let filtered := nameStage filtered c.productName
  let inStockProducts := filtered.filter (fun p => decide (getProductStock env p.sku > 0))
  let results := inStockProducts.take c.maxResults
  results.map (fun p => ⟨p.sku, p.name, p.primaryCategory, p.seats, p.materialType⟩)

/-! ## Shopify price/stock cache (`getCachedShopifyData`, src/app.js:59) -/

/-- The object `getCachedShopifyData` builds from a successful Shopify response. -/
structure ShopifyData where
  price : ℚ
  stock : Int
  url : String
  available : Bool
  title : String
deriving Repr, DecidableEq

/-- A `SHOPIFY_CACHE` entry: `{ data, timestamp }`. -/
structure CacheEntry where
  data : ShopifyData
  timestamp : Int
deriving Repr, DecidableEq

/-- `CACHE_TTL_MS = 5 * 60 * 1000`. -/
def CACHE_TTL_MS : Int := 5 * 60 * 1000

/-- The `SHOPIFY_CACHE` map, as an association list keyed by SKU. -/
def ShopifyCache := List (String × CacheEntry)

/-- `SHOPIFY_CACHE.get(sku)`. -/
def cacheGet (cache : ShopifyCache) (sku : String) : Option CacheEntry :=
  (List.find? (fun e => e.1 == sku) cache).map (fun e => e.2)

/-- `SHOPIFY_CACHE.set(sku, entry)`. -/
def cacheSet (cache : ShopifyCache) (sku : String) (e : CacheEntry) : ShopifyCache :=
  (sku, e) :: List.filter (fun x => x.1 ≠ sku) cache

/-- Observable outcome of one `getCachedShopifyData` call: the returned value,
the cache afterwards, whether the cached data was served, and whether an
external fetch was performed. -/
structure CacheCallResult where
  result : Option ShopifyData
  cache : ShopifyCache
  servedFromCache : Bool
  fetched : Bool

/-- `getCachedShopifyData` (src/app.js:59).  `now` is `Date.now()`; `hasToken`
is the truthiness of `SHOPIFY_ACCESS_TOKEN`; `fetch` is the outcome of the
external lookup were it performed (`none` covers a non-2xx response, a response
without the product, and a thrown network error — all of which return `null`
without touching the cache). -/
def getCachedShopifyData (cache : ShopifyCache) (now : Int) (hasToken : Bool)
    (fetch : Option ShopifyData) (sku : String) : CacheCallResult :=
  let onMiss : CacheCallResult :=
    if !hasToken then ⟨none, cache, false, false⟩
    else
      match fetch with
      | none => ⟨none, cache, false, true⟩
      | some result => ⟨some result, cacheSet cache sku ⟨result, now⟩, false, true⟩
  match cacheGet cache sku with
  | some cached =>
    if now - cached.timestamp < CACHE_TTL_MS then ⟨some cached.data, cache, true, false⟩
    else onMiss
  | none => onMiss

/-! ## Sentiment / purchase-intent classifier (`detectCustomerSentiment`, src/app.js:780) -/

/-- The boundary class `($|\s|,|\.|!)` of the confirmation-word regex. -/
def jsTailBoundary : List Char → Bool
  | [] => true
  | c :: _ => c.isWhitespace || c == ',' || c == '.' || c == '!'

/-- Matcher for the regex `(^|\s)word($|\s|,|\.|!)`: `atB` records whether the
current position follows the start of the string or a whitespace character. -/
def boundaryMatch (w : List Char) : Bool → List Char → Bool
  | atB, [] => atB && w.isEmpty
  | atB, c :: rest =>
    (atB && w.isPrefixOf (c :: rest) && jsTailBoundary ((c :: rest).drop w.length))
    || boundaryMatch w c.isWhitespace rest

/-- `new RegExp((^|\s) + word + ($|\s|,|\.|!), i).test(msgLower)` — the words
tested contain no regex metacharacters, so this is a word-boundary search. -/
def jsWordBoundary (word msg : String) : Bool :=
  boundaryMatch word.toList true msg.toList

/-- The object returned by `detectCustomerSentiment`. -/
structure Sentiment where
  priceConcerned : Bool
  positive : Bool
  strongPositive : Bool
  decline : Bool
  bundleInterest : Bool
  readyToBuy : Bool
  confirmation : Bool
  askingAboutBuying : Bool
  purchaseIntentLevel : Nat
deriving Repr, DecidableEq

def priceConcernWords : List String :=
  ["expensive", "cost", "budget", "afford", "cheaper", "price too", "too much", "pricey",
   "can\u0027t afford"]

def positiveWords : List String :=
  ["love", "great", "perfect", "excellent", "interested", "like", "looks great", "beautiful",
   "amazing", "fantastic", "brilliant", "lovely", "really like", "i like"]

def strongPositiveWords : List String :=
  ["i\u0027ll take", "i will take", "that\u0027s the one", "decided", "go with", "choose",
   "chosen", "want this", "want that", "this one please", "perfect for me"]

def declineWords : List String :=
  ["no thanks", "not interested", "no thank you", "just the", "only want", "don\u0027t need",
   "pass on", "not for me", "don\u0027t like"]

def bundleInterestWords : List String :=
  ["bundle", "discount", "together", "package", "deal", "cover", "protect", "save"]

def readyToBuyWords : List String :=
  ["how do i order", "how do i buy", "how to order", "how to buy",
   "where do i buy", "where can i buy", "where to buy",
   "add to cart", "add to basket", "checkout", "check out",
   "purchase", "buy now", "buy it", "buy this", "take it",
   "i\u0027ll have", "i will have", "order this", "order it",
   "ready to order", "ready to buy", "want to order", "want to buy",
   "place an order", "make an order", "complete my order",
   "get the discount", "apply the discount", "use the discount",
   "proceed", "go ahead", "let\u0027s do it", "sounds good let\u0027s go"]

def confirmationWords : List String :=
  ["yes", "yeah", "yep", "sure", "ok", "okay", "please", "go ahead", "sounds good",
   "that\u0027s great", "that works", "absolutely"]

def buyProcessWords : List String :=
  ["delivery", "shipping", "payment", "pay", "card", "checkout", "when will it arrive",
   "how long", "return policy", "warranty"]

/-- `detectCustomerSentiment` (src/app.js:780). -/
def detectCustomerSentiment (message : String) : Sentiment :=
  let msgLower := jsToLower message
  let isPriceConcerned := priceConcernWords.any (fun w => jsIncludes msgLower w)
  let isPositive := positiveWords.any (fun w => jsIncludes msgLower w)
  let isStrongPositive := strongPositiveWords.any (fun w => jsIncludes msgLower w)
  let isDecline := declineWords.any (fun w => jsIncludes msgLower w)
  let bundleInterest := bundleInterestWords.any (fun w => jsIncludes msgLower w)
  let isReadyToBuy := readyToBuyWords.any (fun w => jsIncludes msgLower w)
  let isConfirmation := confirmationWords.any (fun w => jsWordBoundary w msgLower)
  let isAskingAboutBuying := buyProcessWords.any (fun w => jsIncludes msgLower w)
  let level0 : Nat := 0
  let level1 := if isAskingAboutBuying then 1 else level0
  let level2 := if isStrongPositive || isConfirmation then 2 else level1
  let level3 := if isReadyToBuy then 3 else level2
  { priceConcerned := isPriceConcerned
    positive := isPositive || isStrongPositive
    strongPositive := isStrongPositive
    decline := isDecline
    bundleInterest := bundleInterest
    readyToBuy := isReadyToBuy
    confirmation := isConfirmation
    askingAboutBuying := isAskingAboutBuying
    purchaseIntentLevel := level3 }

/-! ## Server-side card renderer (`renderProductCard`, src/app.js:344) -/

/-- Options object of `renderProductCard`. -/
structure CardOptions where
  showBundleHint : Bool := false
  personalisation : String := ""
deriving Repr, DecidableEq

/-- A rendered product card.  `text` is the markdown string the source builds;
`sku`, `name`, `price` and `stock` additionally record, for specification
purposes, the SKU the card was rendered from and the values interpolated into
the text. -/
structure Card where
  sku : String
  name : String
  price : ℚ
  stock : Int
  text : String
deriving Repr, DecidableEq

/-- The stock-message banner of the card. -/
def stockMessage (stock : Int) : String :=
  if stock ≤ 5 then "🚨 Only " ++ toString stock ++ " left!"
  else if stock ≤ 20 then "⚠️ Low stock - " ++ toString stock ++ " remaining"
  else "✅ In stock"

/-- The `features`/`warranties` extraction loop of `renderProductCard`
(first pro of each material, deduplicated, then the seat count prepended). -/
def buildFeaturesWarranties (p : Product) : List String × List String :=
  let fw := p.materialsAndCare.foldl
    (fun (acc : List String × List String) mat =>
      let features := acc.1
      let warranties := acc.2
      let warranties :=
        match mat.warranty with
        | some w => if w ≠ "" then warranties ++ [mat.name ++ ": " ++ w] else warranties
        | none => warranties
      let features :=
        match mat.pros with
        | some pr =>
          if pr ≠ "" then
            let firstPro := jsTrim ((jsSplitComma pr).headD "")
            if firstPro ≠ "" && !(features.contains firstPro) then features ++ [firstPro]
            else features
          else features
        | none => features
      (features, warranties)) ([], [])
  let features :=
    match p.seats with
    | some s => if s ≠ 0 then ("Seats " ++ toString s ++ " people") :: fw.1 else fw.1
    | none => fw.1
  (features, fw.2)

/-- `renderProductCard` (src/app.js:344).  `shopify` is the per-SKU result of
`getCachedShopifyData` during this turn (treated as a lookup oracle; the cache
itself is modelled separately).  Returns `none` ("return null") for an unknown
SKU or when the resolved stock is `<= 0`. -/
def renderProductCard (env : Env) (shopify : String → Option ShopifyData) (sku : String)
    (opts : CardOptions) : Option Card :=
  match env.findProduct sku with
  | none => none
  | some productData =>
    let shopifyData := shopify sku
    let price : ℚ :=
      let sp : ℚ := (shopifyData.map (fun d => d.price)).getD 0
      if sp ≠ 0 then sp else productData.priceGbp.getD 0
    let stock : Int :=
      match shopifyData with
      | some d => d.stock
      | none => getProductStock env sku
    if stock ≤ 0 then none
    else
      let name := jsOrStr productData.name "Product"
      let imageUrl := jsStr productData.imageUrl
      let productUrl :=
        match shopifyData with
        | some d => if d.url ≠ "" then d.url else "https://www.mint-outdoor.com/search?q=" ++ sku
        | none => "https://www.mint-outdoor.com/search?q=" ++ sku
      let fw := buildFeaturesWarranties productData
      let features := fw.1
      let warranties := fw.2
      let card := "\n**" ++ name ++ "**\n"
      let card :=
        if imageUrl ≠ "" then
          card ++ "<a href=\"" ++ productUrl ++ "\" target=\"_blank\"><img src=\"" ++ imageUrl ++
            "\" alt=\"" ++ name ++
            "\" style=\"max-width:100%; border-radius:8px; margin:8px 0; cursor:pointer;\"></a>\n\n"
        else card
      let card :=
        if opts.personalisation ≠ "" then card ++ "✨ *" ++ opts.personalisation ++ "*\n\n"
        else card
      let card :=
        if features.length > 0 then
          card ++ "**Why customers love this:**\n" ++
            String.join ((features.take 3).map (fun f => "• " ++ f ++ "\n"))
        else card
      let card :=
        match warranties with
        | w :: _ => card ++ "\n**Warranty:** " ++ w ++ "\n"
        | [] => card
      let card := card ++ "\n**Price:** £" ++ fmtFixed2 price ++ "\n" ++
        "**Stock:** " ++ stockMessage stock ++ "\n\n" ++
        "<a href=\"" ++ productUrl ++
        "\" target=\"_blank\" style=\"display:inline-block; padding:10px 20px; background:#2E6041; color:white; text-decoration:none; border-radius:5px;\">View Product →</a>\n"
      let card :=
        if opts.showBundleHint && jsTruthy productData.matchingCoverSku then
          card ++ "\n🎁 *Matching cover available - ask about our 20% bundle discount!*\n"
        else card
      some ⟨sku, name, price, stock, card⟩

/-- The indexed loop of `renderMultipleProducts` (src/app.js:439): the first
SKU gets the bundle hint and the personalisation; failed renders are dropped. -/
def renderMultipleGo (env : Env) (shopify : String → Option ShopifyData)
    (personalisation : String) : Nat → List String → List Card
  | _, [] => []
  | i, sku :: rest =>
    match renderProductCard env shopify sku
        ⟨i == 0, if i == 0 then personalisation else ""⟩ with
    | some c => c :: renderMultipleGo env shopify personalisation (i + 1) rest
    | none => renderMultipleGo env shopify personalisation (i + 1) rest

/-- `renderMultipleProducts` (src/app.js:439). -/
def renderMultipleProducts (env : Env) (shopify : String → Option ShopifyData)
    (skus : List String) (personalisation : String) : List Card :=
  renderMultipleGo env shopify personalisation 0 skus

/-! ## Commercial governance (`COMMERCE_RULES`, eligibility, offers, closing) -/

/-- `COMMERCE_RULES.bundle`. -/
structure BundleRules where
  maxOffersPerSession : Nat := 3
  discountPercent : Nat := 20
  stopAfterDecline : Bool := true
  firstOfferType : String := "soft"
  requireInterestForDetailed : Bool := true

def commerceRulesBundle : BundleRules := {}

/-- `COMMERCE_RULES.crossSell`. -/
structure CrossSellRules where
  priority : List String := ["cover", "cushion_box", "replacement_cushions", "assembly"]
  maxPerProduct : Nat := 2
  assemblyPrice : ℚ := mkRat 9995 100

def commerceRulesCrossSell : CrossSellRules := {}

/-- `session.context`. -/
structure CustomerContext where
  furnitureType : Option String := none
  seatCount : Option Int := none
  material : Option String := none
deriving Repr, DecidableEq

/-- `session.commercial`. -/
structure Commercial where
  bundlesOffered : Nat := 0
  bundleDeclined : Bool := false
  upsellsOffered : Nat := 0
  upsellDeclined : Bool := false
  bundleInterestShown : Bool := false
  positiveSignalReceived : Bool := false
  strongPositiveReceived : Bool := false
  sentiment : String := "neutral"
  latestSentiment : Option Sentiment := none
  productsShown : List String := []
  crossSellsShown : List String := []
  lastProductPrice : Option ℚ := none
  lastOfferType : Option String := none
deriving Repr, DecidableEq

/-- One `conversationHistory` entry (role and content; timestamps elided). -/
structure HistoryEntry where
  role : String
  content : String
deriving Repr, DecidableEq

/-- A session of the global `sessions` map. -/
structure Session where
  messageCount : Nat := 0
  conversationHistory : List HistoryEntry := []
  currentWhitelist : List String := []
  context : CustomerContext := {}
  commercial : Commercial := {}
  customerEmail : Option String := none
  stateSummary : String := ""
deriving Repr, DecidableEq

/-- The session literal created on first contact (src/app.js:1319). -/
def initialSession : Session := {}

/-- JS `array.slice(-n)`. -/
def jsSliceLast {α : Type _} (n : Nat) (l : List α) : List α :=
  l.drop (l.length - n)

/-- `buildStateSummary` (src/app.js:748). -/
def buildStateSummary (session : Session) : String :=
  let ctx := session.context
  let commercial := session.commercial
  let summary := "=== CONVERSATION STATE ===\n"
  let summary :=
    if jsTruthy ctx.material || jsTruthy ctx.furnitureType || jsTruthyInt ctx.seatCount then
      let parts : List String := []
      let parts := if jsTruthy ctx.material then parts ++ [jsStr ctx.material] else parts
      let parts := if jsTruthy ctx.furnitureType then parts ++ [jsStr ctx.furnitureType] else parts
      let parts :=
        if jsTruthyInt ctx.seatCount then parts ++ [toString (ctx.seatCount.getD 0) ++ "+ seats"]
        else parts
      summary ++ "Customer wants: " ++ String.intercalate ", " parts ++ "\n"
    else summary
  let summary :=
    if commercial.productsShown.length > 0 then
      summary ++ "Products shown: " ++
        String.intercalate ", " (jsSliceLast 5 commercial.productsShown) ++ "\n"
    else summary
  let summary :=
    if commercial.sentiment ≠ "neutral" then
      summary ++ "Customer sentiment: " ++ commercial.sentiment ++ "\n"
    else summary
  let summary :=
    if commercial.bundlesOffered > 0 then
      summary ++ "Bundles offered: " ++ toString commercial.bundlesOffered ++ "/3\n"
    else summary
  summary

/-- Result object of `checkBundleEligibility`. -/
structure Eligibility where
  eligible : Bool
  reason : Option String := none
  offerType : Option String := none
deriving Repr, DecidableEq

/-- `checkBundleEligibility` (src/app.js:852). -/
def checkBundleEligibility (session : Session) : Eligibility :=
  let rules := commerceRulesBundle
  let commercial := session.commercial
  if commercial.bundlesOffered ≥ rules.maxOffersPerSession then
    { eligible := false, reason := some "max_offers_reached" }
  else if rules.stopAfterDecline && commercial.bundleDeclined then
    { eligible := false, reason := some "customer_declined" }
  else if commercial.productsShown.length = 0 then
    { eligible := false, reason := some "no_products_shown" }
  else
    { eligible := true,
      offerType := some (if commercial.bundleInterestShown then "detailed" else "soft") }

/-- A bundle together with its item rows (`getBundleForProduct` result element). -/
structure BundleWithProducts where
  bundleId : String
  name : String
  products : List BundleItem
deriving Repr, DecidableEq

/-- `getBundleForProduct` (src/app.js:917). -/
def getBundleForProduct (env : Env) (sku : String) : List BundleWithProducts :=
  env.bundleItems.foldl
    (fun acc item =>
      if item.productSku == sku then
        match env.bundleSuggestions.find? (fun b => b.bundleId == item.bundleId) with
        | some bundle =>
          acc ++ [⟨bundle.bundleId, bundle.name,
                   env.bundleItems.filter (fun bi => bi.bundleId == item.bundleId)⟩]
        | none => acc
      else acc) []

/-- A cross-sell suggestion (`getCrossSellSuggestions` result element). -/
structure CrossSell where
  type : String
  sku : String
  priority : Nat
  price : Option ℚ := none
  pitch : String
deriving Repr, DecidableEq

/-- `getCrossSellSuggestions` (src/app.js:937). -/
def getCrossSellSuggestions (env : Env) (sku : String) (session : Session) : List CrossSell :=
  match env.findProduct sku with
  | none => []
  | some product =>
    let alreadyShown := session.commercial.crossSellsShown
    let suggestions : List CrossSell := []
    let suggestions :=
      match product.matchingCoverSku with
      | some coverSku =>
        if coverSku ≠ "" && !(alreadyShown.contains coverSku) && isInStock env coverSku then
          suggestions ++
            [⟨"cover", coverSku, 1, none,
              "Protect your investment with a matching cover - extends lifespan by 3-5 years!"⟩]
        else suggestions
      | none => suggestions
    let materialType := jsToLower (jsStr product.materialType)
    let suggestions :=
      if materialType == "rattan" then
        let cushionBoxSku := jsOrStr product.productFamily "GENERAL" ++ "-CUSHION-BOX"
        if (env.findProduct cushionBoxSku).isSome && isInStock env cushionBoxSku then
          suggestions ++
            [⟨"cushion_box", cushionBoxSku, 2, none,
              "Keep your cushions fresh and dry with a matching cushion storage box!"⟩]
        else suggestions
      else suggestions
    let suggestions :=
      if product.assemblyRequired then
        suggestions ++
          [⟨"assembly", "ASSEMBLY-SERVICE", 4, some commerceRulesCrossSell.assemblyPrice,
            "Save time with our professional assembly service - just £" ++
              fmtFixed2 commerceRulesCrossSell.assemblyPrice ++ "!"⟩]
      else suggestions
    suggestions.insertionSort (fun a b => a.priority ≤ b.priority)

/-- The response object built by `buildClosingResponse` / the closing fast path. -/
structure ClosingResponse where
  type : String
  intent : Option String := none
  text : String
  mainProduct : Option String := none
  bundlePrice : Option ℚ := none
  savingsAmount : Option ℚ := none
  productPrice : Option ℚ := none
deriving Repr, DecidableEq

/-- `buildClosingResponse` (src/app.js:991). -/
def buildClosingResponse (env : Env) (session : Session) : ClosingResponse :=
  let lastProducts := jsSliceLast 3 session.commercial.productsShown
  let softClose : ClosingResponse :=
    { type := "soft_close",
      text := "I\u0027d love to help you complete your purchase! Which product caught your eye? I can guide you through the ordering process." }
  match lastProducts.head? with
  | none => softClose
  | some mainProductSku =>
    match env.findProduct mainProductSku with
    | none => softClose
    | some mainProduct =>
      let productName := jsOrStr mainProduct.name "your selected product"
      let productUrl := "https://www.mint-outdoor.com/products/" ++ jsToLower mainProductSku
      let price := mainProduct.priceGbp.getD 0
      let bundles := getBundleForProduct env mainProductSku
      let productCheckout : ClosingResponse :=
        { type := "product_checkout", intent := some "checkout_flow",
          text := "Excellent choice! The **" ++ productName ++
            "** is one of our most popular sets.\n\n" ++
            "**Price: £" ++ fmtFixed2 price ++ "**\n" ++
            "✅ In stock with 3-5 day delivery\n" ++
            "✅ 1-year warranty included\n\n" ++
            "**To order:**\n" ++
            "Simply click the button below to add it to your basket and checkout:\n\n" ++
            "<a href=\"" ++ productUrl ++
            "\" target=\"_blank\" style=\"display:inline-block; padding:12px 24px; background:#2E6041; color:white; text-decoration:none; border-radius:5px; font-weight:bold;\">ORDER NOW → £" ++
            fmtFixed2 price ++ "</a>\n\n" ++
            "Would you also like a protective cover? It extends the furniture\u0027s life by 3-5 years and you\u0027ll save " ++
            toString commerceRulesBundle.discountPercent ++ "% when bought together! 🎁",
          mainProduct := some mainProductSku, productPrice := some price }
      match bundles with
      | bundle :: _ =>
        if session.commercial.bundleInterestShown then
          let acc := bundle.products.foldl
            (fun (acc : ℚ × List String) item =>
              match env.findProduct item.productSku with
              | some prod =>
                (acc.1 + prod.priceGbp.getD 0 * (item.productQty : ℚ),
                 acc.2 ++ [prod.name.getD "undefined"])
              | none => acc) (0, [])
          let bundleTotal := acc.1
          let discount := bundleTotal * ((commerceRulesBundle.discountPercent : ℚ) / 100)
          let finalPrice := bundleTotal - discount
          { type := "bundle_checkout", intent := some "checkout_flow",
            text := "Brilliant choice! Here\u0027s how to get your bundle with the " ++
              toString commerceRulesBundle.discountPercent ++ "% discount:\n\n" ++
              "**Your Bundle:**\n" ++
              String.intercalate "\n" (acc.2.map (fun n => "✓ " ++ n)) ++ "\n\n" ++
              "**Bundle Price: £" ++ fmtFixed2 finalPrice ++ "** ~~£" ++ fmtFixed2 bundleTotal ++
              "~~\n" ++
              "*You save: £" ++ fmtFixed2 discount ++ "*\n\n" ++
              "**To order:**\n" ++
              "1️⃣ Click the link below to view the main product\n" ++
              "2️⃣ Add it to your basket\n" ++
              "3️⃣ The matching accessories will be suggested at checkout\n" ++
              "4️⃣ Your " ++ toString commerceRulesBundle.discountPercent ++
              "% bundle discount applies automatically!\n\n" ++
              "<a href=\"" ++ productUrl ++
              "\" target=\"_blank\" style=\"display:inline-block; padding:12px 24px; background:#2E6041; color:white; text-decoration:none; border-radius:5px; font-weight:bold;\">ORDER NOW → £" ++
              fmtFixed2 finalPrice ++ "</a>\n\n" ++
              "Or if you\u0027d like me to email you this quote to review later, just let me know your email address and I\u0027ll send it with the discount locked in for 48 hours! 📧",
            mainProduct := some mainProductSku, bundlePrice := some finalPrice,
            savingsAmount := some discount }
        else productCheckout
      | [] => productCheckout

/-- `getContextAwareClosingCopy` (src/app.js:1086); `rand` supplies
`Math.random`'s choice among the four strong-positive options. -/
def getContextAwareClosingCopy (session : Session) (sentiment : Sentiment) (rand : Nat) :
    String :=
  let commercial := session.commercial
  if sentiment.strongPositive || commercial.positiveSignalReceived then
    let options : List String :=
      ["Ready to order? Click the \u0027View Product\u0027 button above, or let me know if you have any final questions!",
       "Great choice! Click above to add it to your basket, or ask me anything else you\u0027d like to know.",
       "Shall I help you complete your purchase? Just click the product link above to checkout.",
       "Click the button above to order, or let me know if you\u0027d like more details on delivery and warranty."]
    (options.getD (rand % options.length) "")
  else if sentiment.askingAboutBuying then
    "Does this answer your question? When you\u0027re ready, just click the product link above to complete your order."
  else if commercial.productsShown.length ≤ 3 then
    "Which of these catches your eye? I can tell you more about any of them."
  else if commercial.productsShown.length > 5 then
    "You\u0027ve seen a few options now! Would you like me to help you compare, or is there one that stands out?"
  else
    "Would any of these work for your space? Let me know if you\u0027d like more details."

/-- The offer object built by `buildBundleOffer`. -/
structure BundleOffer where
  type : String
  text : String
deriving Repr, DecidableEq

/-- `buildBundleOffer` (src/app.js:1119). -/
def buildBundleOffer (env : Env) (mainProductSku : String) (offerType : Option String) :
    Option BundleOffer :=
  match getBundleForProduct env mainProductSku with
  | [] => none
  | bundle :: _ =>
    if offerType == some "soft" then
      some ⟨"soft",
        "🎁 *Great news! This comes with a matching protective cover bundle - save " ++
          toString commerceRulesBundle.discountPercent ++
          "% when you buy together. Would you like details?*"⟩
    else
      let acc := bundle.products.foldl
        (fun (acc : ℚ × List String) item =>
          match env.findProduct item.productSku with
          | some prod =>
            let price := prod.priceGbp.getD 0
            (acc.1 + price * (item.productQty : ℚ),
             acc.2 ++ ["- " ++ prod.name.getD "undefined" ++ ": £" ++ fmtFixed2 price])
          | none => acc) (0, [])
      let totalOriginal := acc.1
      let discount := totalOriginal * ((commerceRulesBundle.discountPercent : ℚ) / 100)
      let bundlePrice := totalOriginal - discount
      some ⟨"detailed",
        "🎁 **" ++ bundle.name ++ " Bundle Deal**\n\n" ++ String.intercalate "\n" acc.2 ++
          "\n\n~~Original: £" ++ fmtFixed2 totalOriginal ++ "~~\n**Bundle Price: £" ++
          fmtFixed2 bundlePrice ++ "**\n*You save: £" ++ fmtFixed2 discount ++ " (" ++
          toString commerceRulesBundle.discountPercent ++
          "% off)*\n\nWant me to add this bundle to help you complete your purchase?"⟩

/-! ## Whitelist validator and response assembly -/

/-- The structured object the model is asked to return (parsed JSON fields the
server reads; absent fields are `none`). -/
structure AIOutput where
  intent : Option String := none
  response_text : Option String := none
  text : Option String := none
  intro_copy : Option String := none
  selected_skus : Option (List String) := none
  personalisation : Option String := none
  closing_copy : Option String := none
deriving Repr, DecidableEq

/-- `validateAIOutput` (src/app.js:1159): `null` when `intent` is falsy; the
whitelist filter applied exactly when the intent is `product_recommendation`
and `selected_skus` is present; otherwise the object is returned unchanged. -/
def validateAIOutput (aiOutput : AIOutput) (whitelist : List String) : Option AIOutput :=
  if !(jsTruthy aiOutput.intent) then none
  else if aiOutput.intent == some "product_recommendation" && aiOutput.selected_skus.isSome then
    let validSkus := (aiOutput.selected_skus.getD []).filter (fun sku => whitelist.contains sku)
    some { aiOutput with selected_skus := some validSkus }
  else some aiOutput

/-- The sentiment object `{ positive: false }` used when `latestSentiment` is
unset; its missing fields read as `undefined` (falsy). -/
def emptySentiment : Sentiment :=
  ⟨false, false, false, false, false, false, false, false, 0⟩

/-- Observable outcome of `assembleResponse`: the response text, the rendered
cards, and the bundle offer / cross-sell appended (if any). -/
structure AssembleResult where
  text : String
  cards : List Card
  bundleOffer : Option BundleOffer := none
  crossSell : Option String := none
deriving Repr, DecidableEq

/-- The bundle-offer / cross-sell / closing-copy tail of `assembleResponse`
(src/app.js:1238-1296), reached unless the card batch came back empty. -/
def assembleProductTail (env : Env) (rand : Nat) (session : Session)
    (mainProductSku : Option String) (parts : List String) (cards : List Card) :
    AssembleResult × Session :=
  let step : Option BundleOffer × Option String × List String × Session :=
    match mainProductSku with
    | none => (none, none, parts, session)
    | some mainSku =>
      let hasPositiveSignal := session.commercial.positiveSignalReceived
      let bundleEligibility := checkBundleEligibility session
      let shouldOfferBundle := bundleEligibility.eligible &&
        (hasPositiveSignal || session.messageCount ≥ 3 ||
          session.commercial.productsShown.length > 0)
      if shouldOfferBundle then
        match buildBundleOffer env mainSku bundleEligibility.offerType with
        | some bundleOffer =>
          (some bundleOffer, none, parts ++ ["", bundleOffer.text],
           { session with commercial := { session.commercial with
               bundlesOffered := session.commercial.bundlesOffered + 1,
               lastOfferType := some "bundle" } })
        | none => (none, none, parts, session)
      else if hasPositiveSignal then
        match getCrossSellSuggestions env mainSku session with
        | suggestion :: _ =>
          if session.commercial.crossSellsShown.length < 2 then
            (none, some suggestion.sku, parts ++ ["", "💡 *" ++ suggestion.pitch ++ "*"],
             { session with commercial := { session.commercial with
                 crossSellsShown := session.commercial.crossSellsShown ++ [suggestion.sku] } })
          else (none, none, parts, session)
        | [] => (none, none, parts, session)
      else (none, none, parts, session)
  let bundleOffer := step.1
  let crossSell := step.2.1
  let parts := step.2.2.1
  let session := step.2.2.2
  let latestSentiment := session.commercial.latestSentiment.getD emptySentiment
  let closingCopy := getContextAwareClosingCopy session latestSentiment rand
  let parts := parts ++ ["", closingCopy]
  (⟨String.intercalate "\n" parts, cards, bundleOffer, crossSell⟩, session)

/-- `assembleResponse` (src/app.js:1193). -/
def assembleResponse (env : Env) (shopify : String → Option ShopifyData) (rand : Nat)
    (aiOutput : AIOutput) (session : Session) : AssembleResult × Session :=
  let intent := aiOutput.intent
  if intent == some "checkout_flow" then
    (⟨jsOrStr aiOutput.response_text
        (jsOrStr aiOutput.text "Let me help you complete your purchase!"), [], none, none⟩,
     session)
  else if intent == some "email_capture" then
    (⟨jsOrStr aiOutput.response_text
        (jsOrStr aiOutput.text "I\u0027d be happy to email you the details!"), [], none, none⟩,
     session)
  else if intent != some "product_recommendation" then
    (⟨jsOrStr aiOutput.response_text
        "I\u0027m here to help! What would you like to know about our outdoor furniture?",
      [], none, none⟩, session)
  else
    let parts : List String :=
      match aiOutput.intro_copy with
      | some ic => if ic ≠ "" then [ic] else []
      | none => []
    match aiOutput.selected_skus with
    | some skus =>
      if skus.length > 0 then
        let mainProductSku := skus.head?
        let cards := renderMultipleProducts env shopify skus (jsStr aiOutput.personalisation)
        if cards.length > 0 then
          let parts := parts ++ ["", String.intercalate "\n---\n" (cards.map (fun c => c.text))]
          assembleProductTail env rand session mainProductSku parts cards
        else
          let parts := parts ++
            ["\nI\u0027m sorry, but the products I wanted to show you aren\u0027t currently available. Let me find some alternatives - what\u0027s most important to you: material, size, or style?"]
          (⟨String.intercalate "\n" parts, [], none, none⟩, session)
      else assembleProductTail env rand session none parts []
    | none => assembleProductTail env rand session none parts []

/-! ## The `/chat` turn handler (src/app.js:1302) -/

/-- A parsed JSON value as the handler distinguishes it: an array (whose
`.intent` reads as `undefined`) or an object with the fields the server uses. -/
inductive JsValue where
  | arr : JsValue
  | obj : AIOutput → JsValue
deriving Repr, DecidableEq

/-- Property access on the parsed value: an array has no `intent` /
`selected_skus` / text fields, so it behaves as the all-`none` object. -/
def JsValue.toAIOutput : JsValue → AIOutput
  | .arr => {}
  | .obj o => o

/-- The model's reply content, represented by the outcomes of the three parse
layers the handler runs over the raw string: `JSON.parse` of the whole content,
then extraction from a markdown code block, then the first braced substring.
A layer that fails (no match, or `JSON.parse` throwing) is `none`. -/
structure ModelContent where
  directParse : Option JsValue := none
  codeBlockParse : Option JsValue := none
  objectMatch : Option JsValue := none
deriving Repr, DecidableEq

/-- Layer 4, the context-aware fallback (src/app.js:1703-1751), used when no
JSON could be recovered from the model reply. -/
def layer4Fallback (session : Session) : AIOutput :=
  let ctx := session.context
  let hasWhitelist := session.currentWhitelist.length > 0
  let hasContext := jsTruthy ctx.material || jsTruthy ctx.furnitureType || jsTruthyInt ctx.seatCount
  if hasWhitelist && hasContext then
    let contextParts : List String := []
    let contextParts := if jsTruthy ctx.material then contextParts ++ [jsStr ctx.material] else contextParts
    let contextParts :=
      if jsTruthy ctx.furnitureType then contextParts ++ [jsStr ctx.furnitureType] else contextParts
    let contextParts :=
      if jsTruthyInt ctx.seatCount then
        contextParts ++ ["seating " ++ toString (ctx.seatCount.getD 0) ++ "+ people"]
      else contextParts
    let introText :=
      if contextParts.length > 0 then
        "Based on what you\u0027ve told me about wanting " ++ String.intercalate " " contextParts ++
          " furniture, here are some perfect matches:"
      else "Here are some great options"
    { intent := some "product_recommendation",
      intro_copy := some introText,
      selected_skus := some (session.currentWhitelist.take 3),
      personalisation := some ("Perfect for your " ++ jsOrStr ctx.furnitureType "outdoor" ++ " space"),
      closing_copy := some "Would any of these work for you? I can also tell you more about materials, warranties, or dimensions." }
  else if hasContext && !hasWhitelist then
    let contextParts : List String := []
    let contextParts := if jsTruthy ctx.material then contextParts ++ [jsStr ctx.material] else contextParts
    let contextParts :=
      if jsTruthy ctx.furnitureType then contextParts ++ [jsStr ctx.furnitureType] else contextParts
    let contextParts :=
      if jsTruthyInt ctx.seatCount then
        contextParts ++ ["for " ++ toString (ctx.seatCount.getD 0) ++ " people"]
      else contextParts
    { intent := some "clarification",
      response_text := some ("Great! I can see you\u0027re interested in " ++
        String.intercalate " " contextParts ++
        " furniture. Let me find the best options for you. Just to make sure I show you exactly what you need - are you looking for something for dining or lounging?") }
  else
    { intent := some "greeting",
      response_text := some "Hi there! I\u0027m Gwen, your outdoor furniture expert. What kind of outdoor space are you looking to furnish - a dining area, a cosy lounge spot, or perhaps both?" }

/-- The layered parse (layers 1-3) ending in the layer-4 fallback. -/
def parseAIOutput (c : ModelContent) (session : Session) : AIOutput :=
  match c.directParse with
  | some v => v.toAIOutput
  | none =>
    match c.codeBlockParse with
    | some v => v.toAIOutput
    | none =>
      match c.objectMatch with
      | some v => v.toAIOutput
      | none => layer4Fallback session

/-- The clarification fallback used when `validateAIOutput` returns `null`
(src/app.js:1760-1775). -/
def postValidationFallback (session : Session) : AIOutput :=
  let ctx := session.context
  let fallbackText :=
    if jsTruthy ctx.material || jsTruthyInt ctx.seatCount then
      "I\u0027m still looking for " ++ jsOrStr ctx.material "furniture" ++
        (if jsTruthyInt ctx.seatCount then
          " for " ++ toString (ctx.seatCount.getD 0) ++ " people"
         else "") ++
        ". Could you tell me if you prefer dining or lounge style?"
    else "I\u0027d love to help you find the perfect outdoor furniture."
  { intent := some "clarification", response_text := some fallbackText }

/-- A tool invocation requested by the model. -/
inductive ToolCall where
  | search (args : Criteria)
  | materialInfo (material : String)
  | humanHandoff (reason : String) (customerEmail : Option String)
  | captureEmail (email : String) (productSkus : Option (List String)) (includeBundle : Option Bool)
  | initiateCheckout (productSku : String) (includeBundle : Option Bool)
deriving Repr, DecidableEq

/-- One iteration of the tool-call loop (src/app.js:1490-1554): only
`search_products` mutates the session (context fields from truthy arguments,
then the whitelist replaced by the search results' SKUs); `get_material_info`
and `request_human_handoff` only produce tool outputs.  The
`capture_email_for_quote` and `initiate_checkout` branches sit outside the
loop in the source and are never reached (see `processTurn`). -/
def applyToolCall (env : Env) (s : Session) (c : ToolCall) : Session :=
  match c with
  | .search args =>
    let ctx := s.context
    let ctx :=
      match args.furnitureType with
      | some ft => if ft ≠ "" then { ctx with furnitureType := some ft } else ctx
      | none => ctx
    let ctx :=
      match args.seatCount with
      | some n => if n ≠ 0 then { ctx with seatCount := some n } else ctx
      | none => ctx
    let ctx :=
      match args.material with
      | some m => if m ≠ "" then { ctx with material := some m } else ctx
      | none => ctx
    let products := searchProducts env args
    { s with context := ctx, currentWhitelist := products.map (fun p => p.sku) }
  | _ => s

/-- The whole tool-call loop. -/
def processToolCalls (env : Env) (s : Session) (calls : List ToolCall) : Session :=
  calls.foldl (applyToolCall env) s

/-- The first model reply: either a truthy `tool_calls` array or plain content. -/
inductive ModelMessage where
  | toolCalls (calls : List ToolCall)
  | content (c : ModelContent)

/-- `msgLower.match(/(\d+)\s*(?:people|person|seat|seater)/)`: the leftmost
digit run followed by optional whitespace and one of the keywords ("seat"
already covers "seater"), returning the parsed capture group. -/
def digitsToNat (l : List Char) : Nat :=
  l.foldl (fun acc c => acc * 10 + (c.toNat - 48)) 0

def seatKeywordAfter (l : List Char) : Bool :=
  let rest := l.dropWhile Char.isWhitespace
  List.isPrefixOf "people".toList rest || List.isPrefixOf "person".toList rest ||
    List.isPrefixOf "seat".toList rest

def seatRegexMatch : List Char → Option Nat
  | [] => none
  | c :: rest =>
    if c.isDigit then
      let run := List.takeWhile Char.isDigit (c :: rest)
      let after := List.dropWhile Char.isDigit (c :: rest)
      if seatKeywordAfter after then some (digitsToNat run)
      else seatRegexMatch rest
    else seatRegexMatch rest

/-- The context-extraction block of the handler (src/app.js:1347-1377). -/
def extractContext (ctx : CustomerContext) (msgLower : String) : CustomerContext :=
  let ctx :=
    if jsIncludes msgLower "aluminium" || jsIncludes msgLower "aluminum" then
      { ctx with material := some "aluminium" }
    else ctx
  let ctx := if jsIncludes msgLower "rattan" then { ctx with material := some "rattan" } else ctx
  let ctx := if jsIncludes msgLower "teak" then { ctx with material := some "teak" } else ctx
  let ctx := if jsIncludes msgLower "dining" then { ctx with furnitureType := some "dining" } else ctx
  let ctx :=
    if jsIncludes msgLower "lounge" || jsIncludes msgLower "lounging" then
      { ctx with furnitureType := some "lounge" }
    else ctx
  let ctx := if jsIncludes msgLower "corner" then { ctx with furnitureType := some "corner" } else ctx
  match seatRegexMatch msgLower.toList with
  | some n => { ctx with seatCount := some (n : Int) }
  | none => ctx

/-- The sentiment-flag block of the handler (src/app.js:1383-1415). -/
def applySentiment (comm : Commercial) (sentiment : Sentiment) : Commercial :=
  let comm := { comm with latestSentiment := some sentiment }
  let comm :=
    if sentiment.priceConcerned then { comm with sentiment := "price_concerned" }
    else if sentiment.positive then
      { comm with sentiment := "positive", positiveSignalReceived := true }
    else comm
  let comm :=
    if sentiment.strongPositive then { comm with strongPositiveReceived := true } else comm
  let comm :=
    if sentiment.bundleInterest then { comm with bundleInterestShown := true } else comm
  if sentiment.decline then
    if comm.lastOfferType == some "bundle" then { comm with bundleDeclined := true }
    else if comm.lastOfferType == some "upsell" then { comm with upsellDeclined := true }
    else comm
  else comm

/-- Message-count increment, context extraction and sentiment flags — the part
of the turn before the purchase-intent fast path. -/
def preprocessSession (s : Session) (message : String) : Session :=
  let s := { s with messageCount := s.messageCount + 1 }
  let s := { s with context := extractContext s.context (jsToLower message) }
  { s with commercial := applySentiment s.commercial (detectCustomerSentiment message) }

/-- The HTTP outcome of one `/chat` turn. -/
inductive TurnResult where
  /-- 400: missing message. -/
  | badRequest : TurnResult
  /-- The purchase-intent fast path answered with a closing response. -/
  | closing (r : ClosingResponse) : TurnResult
  /-- The normal path: the assembled response, and the (validated) structured
  output it was assembled from. -/
  | ok (a : AssembleResult) (aiOutput : AIOutput) : TurnResult
  /-- 500: the catch-all error response. -/
  | error500 : TurnResult
deriving Repr, DecidableEq

/-- The cards rendered into the turn's response. -/
def TurnResult.cards : TurnResult → List Card
  | .ok a _ => a.cards
  | _ => []

/-- Whether the turn appended a bundle offer. -/
def TurnResult.bundleOffered : TurnResult → Bool
  | .ok a _ => a.bundleOffer.isSome
  | _ => false

/-- Whether the turn was answered by the closing fast path. -/
def TurnResult.isClosing : TurnResult → Bool
  | .closing _ => true
  | _ => false

/-- The validated structured output of a normal turn. -/
def TurnResult.aiOutput? : TurnResult → Option AIOutput
  | .ok _ o => some o
  | _ => none

/-- One iteration of the `productsShown` / `lastProductPrice` tracking loop
after assembly (src/app.js:1802-1815). -/
def trackOne (env : Env) (c : Commercial) (sku : String) : Commercial :=
  let c :=
    if c.productsShown.contains sku then c
    else { c with productsShown := c.productsShown ++ [sku] }
  match env.findProduct sku with
  | some p =>
    match p.priceGbp with
    | some pq => if pq ≠ 0 then { c with lastProductPrice := some pq } else c
    | none => c
  | none => c

/-- The whole tracking loop (run only for a `product_recommendation` with
`selected_skus` present). -/
def trackProducts (env : Env) (aiOutput : AIOutput) (comm : Commercial) : Commercial :=
  if aiOutput.intent == some "product_recommendation" && aiOutput.selected_skus.isSome then
    (aiOutput.selected_skus.getD []).foldl (trackOne env) comm
  else comm

/-- History trimming: keep the first 2 and last 10 entries once above 12. -/
def trimHistory (h : List HistoryEntry) : List HistoryEntry :=
  if h.length > 12 then h.take 2 ++ jsSliceLast 10 h else h

/-- The content path of the turn: parse layers, validation (with the
clarification fallback), assembly, then history/commercial bookkeeping —
including the second, duplicate `productsShown.push` at src/app.js:1846. -/
def contentTurn (env : Env) (shopify : String → Option ShopifyData) (rand : Nat)
    (s : Session) (c : ModelContent) (message : String) : TurnResult × Session :=
  let parsed := parseAIOutput c s
  let aiOutput :=
    match validateAIOutput parsed s.currentWhitelist with
    | some o => o
    | none => postValidationFallback s
  let res := assembleResponse env shopify rand aiOutput s
  let ar := res.1
  let s := res.2
  let s := { s with conversationHistory :=
    s.conversationHistory ++ ([⟨"user", message⟩, ⟨"assistant", ar.text⟩] : List HistoryEntry) }
  let s := { s with commercial := trackProducts env aiOutput s.commercial }
  let s := { s with conversationHistory := trimHistory s.conversationHistory }
  let s := { s with stateSummary := buildStateSummary s }
  let s :=
    if aiOutput.intent == some "product_recommendation" && aiOutput.selected_skus.isSome then
      { s with commercial := { s.commercial with
          productsShown := s.commercial.productsShown ++ aiOutput.selected_skus.getD [] } }
    else s
  (.ok ar aiOutput, s)

/-- One `/chat` turn (src/app.js:1302).  On a reply with tool calls the loop
runs to completion (so a `search_products` call replaces the whitelist), after
which the source dereferences the loop-scoped `toolCall` binding outside the
loop (src/app.js:1556) — a `ReferenceError` caught by the handler's `try`,
answered as the generic 500 response with the session mutations kept. -/
def processTurn (env : Env) (shopify : String → Option ShopifyData) (rand : Nat)
    (s0 : Session) (message : String) (model : ModelMessage) : TurnResult × Session :=
  if message == "" then (.badRequest, s0)
  else
    let sentiment := detectCustomerSentiment message
    let s := preprocessSession s0 message
    if sentiment.readyToBuy && s.commercial.productsShown.length > 0 then
      let closingResponse := buildClosingResponse env s
      let s := { s with conversationHistory :=
        s.conversationHistory ++
          ([⟨"user", message⟩, ⟨"assistant", closingResponse.text⟩] : List HistoryEntry) }
      (.closing closingResponse, s)
    else
      match model with
      | .toolCalls calls => (.error500, processToolCalls env s calls)
      | .content c => contentTurn env shopify rand s c message

/-- The per-turn inputs of a multi-turn run. -/
structure TurnIn where
  message : String
  model : ModelMessage
  rand : Nat
  shopify : String → Option ShopifyData

/-- A sequence of `/chat` turns against one session. -/
def runTurns (env : Env) : Session → List TurnIn → List TurnResult × Session
  | s, [] => ([], s)
  | s, t :: ts =>
    let r := processTurn env t.shopify t.rand s t.message t.model
    let rest := runTurns env r.2 ts
    (r.1 :: rest.1, rest.2)

/-! ## Spec-side definitions (the claims' vocabulary) -/

/-- Spec-side (claim C4): the local snapshot's available count, `a`, 0 if the
snapshot has no record for the SKU. -/
def localAvailSpec (env : Env) (sku : String) : Int :=
  ((env.findInv sku).map (fun r => r.available)).getD 0

/-- Spec-side (claim C4): the embedded product-catalog inventory's available
count, `b`, 0 if absent. -/
def pkcAvailSpec (env : Env) (sku : String) : Int :=
  ((env.pkcInvOf sku).bind (fun x => x)).getD 0

/-- Spec-side (claim C4): whether either source has any record for the SKU. -/
def hasStockRecord (env : Env) (sku : String) : Bool :=
  (env.findInv sku).isSome || (env.pkcInvOf sku).isSome

/-- The stock value `renderProductCard` resolves before its refusal check:
`shopifyData?.stock ?? getProductStock(sku)`. -/
def renderStock (env : Env) (shopify : String → Option ShopifyData) (sku : String) : Int :=
  match shopify sku with
  | some d => d.stock
  | none => getProductStock env sku

/-! ## Theorems -/

/-- C4: for every SKU, `getProductStock` returns `max(a, b)` of the local
snapshot count `a` (0 if absent) and the embedded-catalog count `b` (0 if
absent), except that it returns the configured assume-in-stock default 100
when neither source has any record for the SKU at all. -/
theorem getProductStock_merges_sources (env : Env) (sku : String) :
    getProductStock env sku =
      if hasStockRecord env sku then max (localAvailSpec env sku) (pkcAvailSpec env sku)
      else 100 := by
  unfold getProductStock hasStockRecord localAvailSpec pkcAvailSpec
  rcases h1 : env.findInv sku with _ | r <;>
    rcases h2 : env.pkcInvOf sku with _ | iv <;>
      simp only [h1, h2, Option.map_some, Option.map_none, Option.getD_some, Option.getD_none,
        Option.bind_some, Option.bind_none, Option.isSome_some, Option.isSome_none] <;>
    first
    | (rcases iv with _ | v <;> simp <;> rcases eq_or_ne v 0 with hv | hv <;> simp [hv])
    | simp

/-- C2: stock exclusion.  If the resolved stock of a SKU is `<= 0` it is
excluded: `searchProducts` (whose mandatory final stage filters on
`getProductStock`) never returns it under any criteria, and
`renderProductCard` (which resolves stock as live-Shopify-first,
`renderStock`) returns `null` for it, so no card is produced. -/
theorem stock_exclusion (env : Env) (sku : String) :
    (∀ c : Criteria, getProductStock env sku ≤ 0 → ∀ r ∈ searchProducts env c, r.sku ≠ sku) ∧
    (∀ (shopify : String → Option ShopifyData) (opts : CardOptions),
      renderStock env shopify sku ≤ 0 → renderProductCard env shopify sku opts = none) := by
  constructor
  · intro c h r hr
    unfold searchProducts at hr
    simp only [List.mem_map] at hr
    obtain ⟨p, hp, rfl⟩ := hr
    have hp' := List.mem_of_mem_take hp
    rw [List.mem_filter] at hp'
    have hpos := hp'.2
    simp only [decide_eq_true_eq] at hpos
    intro hsk
    dsimp at hsk
    rw [hsk] at hpos
    omega
  · intro shopify opts h
    unfold renderProductCard
    rcases hf : env.findProduct sku with _ | p
    · rfl
    · unfold renderStock at h
      rcases hs : shopify sku with _ | d <;> rw [hs] at h <;> simp only [hs] <;>
        rw [if_pos h]

/-- Witness for C2 at a concrete catalog with an out-of-stock product. -/
def envOOS : Env :=
  { products := [{ sku := "OOS-SET", name := some "Gone", primaryCategory := some "Lounge",
                   pkcInventory := some (some 0) }],
    inventory := [⟨"OOS-SET", 0⟩] }

theorem stock_exclusion_witness :
    getProductStock envOOS "OOS-SET" ≤ 0 ∧
    (∀ r ∈ searchProducts envOOS {}, r.sku ≠ "OOS-SET") ∧
    renderProductCard envOOS (fun _ => none) "OOS-SET" {} = none := by
  refine ⟨by decide,
    fun r hr => (stock_exclusion envOOS "OOS-SET").1 {} (by decide) r hr,
    (stock_exclusion envOOS "OOS-SET").2 (fun _ => none) {} (by decide)⟩

/-- C7: a cache entry stored at time `T` is never served for a call at `T'`
with `T' - T >= CACHE_TTL_MS`; instead, the external fetch path runs (an
actual fetch fires whenever the Shopify access token is configured), and the
call's result is the fetch outcome, not the stale entry. -/
theorem cache_ttl_never_serves_stale (cache : ShopifyCache) (now : Int) (hasToken : Bool)
    (fetch : Option ShopifyData) (sku : String) (e : CacheEntry)
    (hget : cacheGet cache sku = some e)
    (hstale : now - e.timestamp ≥ CACHE_TTL_MS) :
    (getCachedShopifyData cache now hasToken fetch sku).servedFromCache = false ∧
    (getCachedShopifyData cache now hasToken fetch sku).fetched = hasToken ∧
    (getCachedShopifyData cache now hasToken fetch sku).result =
      (if hasToken then fetch else none) := by
  unfold getCachedShopifyData
  rw [hget]
  dsimp only
  rw [if_neg (by omega : ¬(now - e.timestamp < CACHE_TTL_MS))]
  cases hasToken <;> cases fetch <;> simp

/-- Witness for C7: a five-minute-old entry is not served and a fetch fires. -/
def staleEntry : CacheEntry := ⟨⟨1, 2, "u", true, "t"⟩, 0⟩

theorem cache_ttl_never_serves_stale_witness :
    cacheGet [("SKU1", staleEntry)] "SKU1" = some staleEntry ∧
    (300000 : Int) - staleEntry.timestamp ≥ CACHE_TTL_MS ∧
    (getCachedShopifyData [("SKU1", staleEntry)] 300000 true none "SKU1").servedFromCache
      = false ∧
    (getCachedShopifyData [("SKU1", staleEntry)] 300000 true none "SKU1").fetched = true ∧
    (getCachedShopifyData [("SKU1", staleEntry)] 300000 true none "SKU1").result = none := by
  have h := cache_ttl_never_serves_stale [("SKU1", staleEntry)] 300000 true none "SKU1"
    staleEntry (by decide) (by decide)
  exact ⟨by decide, by decide, h.1, h.2.1, by simpa using h.2.2⟩

/-- C10: `validateAIOutput` leaves any output with a non-empty intent other
than `product_recommendation` completely unchanged — `selected_skus`
included — so no whitelist filtering happens for those intents. -/
theorem validate_passthrough_non_recommendation (aiOutput : AIOutput)
    (whitelist : List String) (s : String)
    (h1 : aiOutput.intent = some s) (h2 : s ≠ "") (h3 : s ≠ "product_recommendation") :
    validateAIOutput aiOutput whitelist = some aiOutput := by
  unfold validateAIOutput jsTruthy
  rw [h1]
  simp [h2, h3]

/-- Witness for C10: a `greeting` output with an un-whitelisted SKU passes
through untouched. -/
def passOut : AIOutput := { intent := some "greeting", selected_skus := some ["HALLUCINATED"] }

theorem validate_passthrough_non_recommendation_witness :
    validateAIOutput passOut [] = some passOut :=
  validate_passthrough_non_recommendation passOut [] "greeting" rfl (by decide) (by decide)

/-! ### C3: the whitelist is populated only by the search engine -/

/-- The tool calls requested by a model reply (empty for a content reply). -/
def ModelMessage.calls : ModelMessage → List ToolCall
  | .toolCalls cs => cs
  | .content _ => []

theorem preprocess_whitelist (s : Session) (msg : String) :
    (preprocessSession s msg).currentWhitelist = s.currentWhitelist := rfl

theorem applyToolCall_whitelist (env : Env) (s : Session) (c : ToolCall) :
    (applyToolCall env s c).currentWhitelist = s.currentWhitelist ∨
    ∃ args, c = ToolCall.search args ∧
      (applyToolCall env s c).currentWhitelist =
        (searchProducts env args).map (fun p => p.sku) := by
  cases c
  case search args => exact Or.inr ⟨args, rfl, rfl⟩
  all_goals exact Or.inl rfl

theorem processToolCalls_whitelist (env : Env) (calls : List ToolCall) :
    ∀ s : Session,
      (processToolCalls env s calls).currentWhitelist = s.currentWhitelist ∨
      ∃ args, ToolCall.search args ∈ calls ∧
        (processToolCalls env s calls).currentWhitelist =
          (searchProducts env args).map (fun p => p.sku) := by
  induction calls with
  | nil => intro s; exact Or.inl rfl
  | cons c cs ih =>
    intro s
    have hfold : processToolCalls env s (c :: cs) =
        processToolCalls env (applyToolCall env s c) cs := rfl
    rw [hfold]
    rcases ih (applyToolCall env s c) with h | ⟨args, hmem, heq⟩
    · rw [h]
      rcases applyToolCall_whitelist env s c with h2 | ⟨args, hc, h2⟩
      · exact Or.inl h2
      · exact Or.inr ⟨args, by simp [hc], h2⟩
    · exact Or.inr ⟨args, List.mem_cons_of_mem _ hmem, heq⟩

theorem assembleProductTail_whitelist (env : Env) (rand : Nat) (s : Session)
    (m : Option String) (parts : List String) (cards : List Card) :
    (assembleProductTail env rand s m parts cards).2.currentWhitelist = s.currentWhitelist := by
  unfold assembleProductTail
  rcases m with _ | mk <;> dsimp only <;> (repeat' split) <;> rfl

theorem assembleResponse_whitelist (env : Env) (shopify : String → Option ShopifyData)
    (rand : Nat) (o : AIOutput) (s : Session) :
    (assembleResponse env shopify rand o s).2.currentWhitelist = s.currentWhitelist := by
  simp only [assembleResponse]
  repeat' split
  all_goals first | rfl | apply assembleProductTail_whitelist

theorem contentTurn_whitelist (env : Env) (shopify : String → Option ShopifyData) (rand : Nat)
    (s : Session) (c : ModelContent) (msg : String) :
    (contentTurn env shopify rand s c msg).2.currentWhitelist = s.currentWhitelist := by
  unfold contentTurn
  dsimp only
  split
  all_goals exact assembleResponse_whitelist env shopify rand _ s

/-- C3: the session whitelist is only ever populated by the search engine.
(a) The moment a `search_products` tool call is handled, the whitelist is
replaced by exactly the ordered SKU list of that search's results, whatever
it previously held; (b) over a whole turn, the whitelist either stays what it
was or equals the SKU list of one of the turn's `search_products` results —
no other operation adds SKUs. -/
theorem whitelist_populated_only_by_search :
    (∀ (env : Env) (s : Session) (pre : List ToolCall) (args : Criteria),
      (processToolCalls env s (pre ++ [ToolCall.search args])).currentWhitelist =
        (searchProducts env args).map (fun p => p.sku)) ∧
    (∀ (env : Env) (shopify : String → Option ShopifyData) (rand : Nat) (s : Session)
        (msg : String) (model : ModelMessage),
      (processTurn env shopify rand s msg model).2.currentWhitelist = s.currentWhitelist ∨
      ∃ args, ToolCall.search args ∈ model.calls ∧
        (processTurn env shopify rand s msg model).2.currentWhitelist =
          (searchProducts env args).map (fun p => p.sku)) := by
  constructor
  · intro env s pre args
    unfold processToolCalls
    rw [List.foldl_append]
    rfl
  · intro env shopify rand s msg model
    unfold processTurn
    split
    · exact Or.inl rfl
    · dsimp only
      split
      · exact Or.inl (preprocess_whitelist s msg)
      · cases model with
        | toolCalls cs =>
          rcases processToolCalls_whitelist env cs (preprocessSession s msg) with h | ⟨args, hmem, heq⟩
          · exact Or.inl (h.trans (preprocess_whitelist s msg))
          · exact Or.inr ⟨args, hmem, heq⟩
        | content c =>
          exact Or.inl ((contentTurn_whitelist env shopify rand _ c msg).trans
            (preprocess_whitelist s msg))

/-! ### C5: the seat-count capacity fallback -/

/-- The descending-sorted positive-seat candidates of the fallback branch. -/
def fallbackSorted (env : Env) (c : Criteria) : List Product :=
  ((preSeatCandidates env c).filter seatsPos).insertionSort (fun a b => seatsOf b ≤ seatsOf a)

/-- The largest available seat count among the pre-filter candidates (the head
of the descending sort), 0 when there is none. -/
def maxSeatsFallback (env : Env) (c : Criteria) : Int :=
  match fallbackSorted env c with
  | top :: _ => seatsOf top
  | [] => 0

theorem nameStage_subset (l : List Product) (pn : Option String) :
    ∀ p ∈ nameStage l pn, p ∈ l := by
  intro p hp
  unfold nameStage at hp
  rcases pn with _ | s
  · exact hp
  · dsimp only at hp
    split at hp
    · exact List.mem_of_mem_filter hp
    · exact hp

/-- C5 (amended): when the requested minimum seat count defeats every
candidate but seat-bearing candidates exist, `searchProducts` degrades by
capacity *with a one-seat tolerance*: every returned product has a seat count
of at least (largest available seat count) − 1, and the result is non-empty
whenever no name filter applies, `maxResults` is positive and some product of
the fallback range is in stock. -/
theorem seat_fallback_tolerance (env : Env) (c : Criteria) (t : Int)
    (hseat : c.seatCount = some t) (ht : t ≠ 0)
    (hnomatch : (preSeatCandidates env c).filter (seatMeets t) = [])
    (hsome : (preSeatCandidates env c).filter seatsPos ≠ []) :
    (∀ r ∈ searchProducts env c, ∃ s', r.seats = some s' ∧ maxSeatsFallback env c - 1 ≤ s') ∧
    (c.productName = none → 0 < c.maxResults →
      (∃ p ∈ seatStage (preSeatCandidates env c) c.seatCount, getProductStock env p.sku > 0) →
      searchProducts env c ≠ []) := by
  have hsort : fallbackSorted env c ≠ [] := by
    intro hnil
    have := List.length_insertionSort (fun a b => seatsOf b ≤ seatsOf a)
      ((preSeatCandidates env c).filter seatsPos)
    rw [show ((preSeatCandidates env c).filter seatsPos).insertionSort
        (fun a b => seatsOf b ≤ seatsOf a) = fallbackSorted env c from rfl, hnil] at this
    exact hsome (List.length_eq_zero.mp this.symm)
  rcases hms : fallbackSorted env c with _ | ⟨top, rest⟩
  · exact absurd hms hsort
  have hmax : maxSeatsFallback env c = seatsOf top := by
    unfold maxSeatsFallback
    rw [hms]
  have hstage : seatStage (preSeatCandidates env c) c.seatCount =
      (top :: rest).filter (fun p =>
        match p.seats with
        | some s => s ≥ seatsOf top - 1
        | none => false) := by
    rw [hseat]
    unfold seatStage
    dsimp only
    rw [if_neg ht, hnomatch]
    simp only [List.length_nil, gt_iff_lt, lt_irrefl, if_false]
    rw [show ((preSeatCandidates env c).filter seatsPos).insertionSort
        (fun a b => seatsOf b ≤ seatsOf a) = fallbackSorted env c from rfl, hms]
  constructor
  · intro r hr
    unfold searchProducts at hr
    simp only [List.mem_map] at hr
    obtain ⟨p, hp, rfl⟩ := hr
    have hp2 := List.mem_of_mem_filter (List.mem_of_mem_take hp)
    have hp3 := nameStage_subset _ _ _ hp2
    rw [hstage] at hp3
    have hp4 := List.mem_filter.mp hp3
    have := hp4.2
    rcases hps : p.seats with _ | s'
    · rw [hps] at this; exact absurd this (by simp)
    · rw [hps] at this
      refine ⟨s', rfl, ?_⟩
      rw [hmax]
      simpa using this
  · intro hpn hmr ⟨p, hp, hstock⟩
    intro hnil
    simp only [searchProducts] at hnil
    have hpn2 : nameStage (seatStage (preSeatCandidates env c) c.seatCount) c.productName
        = seatStage (preSeatCandidates env c) c.seatCount := by
      rw [hpn]; rfl
    rw [hpn2] at hnil
    have hmem : p ∈ (seatStage (preSeatCandidates env c) c.seatCount).filter
        (fun p => decide (getProductStock env p.sku > 0)) :=
      List.mem_filter.mpr ⟨hp, by simpa using hstock⟩
    have htake : ((seatStage (preSeatCandidates env c) c.seatCount).filter
        (fun p => decide (getProductStock env p.sku > 0))).take c.maxResults ≠ [] := by
      intro h
      rcases List.take_eq_nil_iff.mp h with h' | h'
      · omega
      · exact List.ne_nil_of_mem hmem h'
    rw [List.map_eq_nil_iff] at hnil
    exact htake hnil

/-- Concrete catalog for C5: two in-stock lounge sets, 9 and 8 seats. -/
def envSeat : Env :=
  { products := [
      { sku := "P9-SET", name := some "Nine Lounge", primaryCategory := some "Lounge Sets",
        seats := some 9 },
      { sku := "P8-SET", name := some "Eight Lounge", primaryCategory := some "Lounge Sets",
        seats := some 8 }],
    inventory := [⟨"P9-SET", 5⟩, ⟨"P8-SET", 5⟩] }

/-- Counterexample to C5 as stated: with `minSeats = 12` against a catalog
whose maximum is 9 seats, the result contains the 9-seat product *and* the
8-seat product (the fallback keeps everything within one seat of the maximum),
so it is not true that only the largest-seat-count products are returned. -/
theorem seat_fallback_counterexample :
    (∀ p ∈ envSeat.products, seatsOf p < 12) ∧
    (∃ r ∈ searchProducts envSeat { seatCount := some 12 }, r.seats = some 9) ∧
    (∃ r ∈ searchProducts envSeat { seatCount := some 12 }, r.seats = some 8) := by
  decide

/-- Witness for the amended C5 at the concrete catalog. -/
theorem seat_fallback_tolerance_witness :
    (∀ r ∈ searchProducts envSeat { seatCount := some 12 },
      ∃ s', r.seats = some s' ∧ maxSeatsFallback envSeat { seatCount := some 12 } - 1 ≤ s') ∧
    searchProducts envSeat { seatCount := some 12 } ≠ [] := by
  have h := seat_fallback_tolerance envSeat { seatCount := some 12 } 12 rfl (by decide)
    (by decide) (by decide)
  refine ⟨h.1, h.2 rfl (by decide) ?_⟩
  refine ⟨envSeat.products.headD { sku := "" }, by decide, by decide⟩

/-! ### C1: whitelist soundness -/

theorem renderProductCard_sku (env : Env) (shopify : String → Option ShopifyData)
    (sku : String) (opts : CardOptions) (c : Card)
    (h : renderProductCard env shopify sku opts = some c) : c.sku = sku := by
  unfold renderProductCard at h
  rcases hf : env.findProduct sku with _ | p <;> rw [hf] at h
  · exact absurd h (by simp)
  · dsimp only at h
    split at h
    · exact absurd h (by simp)
    · cases h
      rfl

theorem renderMultipleGo_sku (env : Env) (shopify : String → Option ShopifyData)
    (pers : String) (skus : List String) :
    ∀ (i : Nat) (c : Card), c ∈ renderMultipleGo env shopify pers i skus → c.sku ∈ skus := by
  induction skus with
  | nil => intro i c hc; exact absurd hc (by simp [renderMultipleGo])
  | cons sku rest ih =>
    intro i c hc
    simp only [renderMultipleGo] at hc
    rcases hr : renderProductCard env shopify sku
        ⟨i == 0, if i == 0 then pers else ""⟩ with _ | c0 <;> rw [hr] at hc
    · exact List.mem_cons_of_mem _ (ih (i + 1) c hc)
    · rcases List.mem_cons.mp hc with rfl | hc'
      · rw [renderProductCard_sku env shopify sku _ c hr]
        exact List.mem_cons_self _ _
      · exact List.mem_cons_of_mem _ (ih (i + 1) c hc')

theorem assembleProductTail_cards (env : Env) (rand : Nat) (s : Session)
    (m : Option String) (parts : List String) (cards : List Card) :
    (assembleProductTail env rand s m parts cards).1.cards = cards := by
  unfold assembleProductTail
  rcases m with _ | mk <;> dsimp only <;> (repeat' split) <;> rfl

theorem assembleResponse_cards (env : Env) (shopify : String → Option ShopifyData)
    (rand : Nat) (o : AIOutput) (s : Session) (c : Card)
    (hc : c ∈ (assembleResponse env shopify rand o s).1.cards) :
    o.intent = some "product_recommendation" ∧
    ∃ l, o.selected_skus = some l ∧ c.sku ∈ l := by
  simp only [assembleResponse] at hc
  split at hc
  · exact absurd hc (by simp)
  · split at hc
    · exact absurd hc (by simp)
    · split at hc
      · exact absurd hc (by simp)
      · rename_i hik
        have hint : o.intent = some "product_recommendation" := by
          simpa using hik
        refine ⟨hint, ?_⟩
        rcases hsel : o.selected_skus with _ | skus <;> rw [hsel] at hc
        · rw [assembleProductTail_cards] at hc
          exact absurd hc (by simp)
        · dsimp only at hc
          split at hc
          · split at hc
            · rw [assembleProductTail_cards] at hc
              exact ⟨skus, rfl, renderMultipleGo_sku env shopify _ skus 0 c hc⟩
            · exact absurd hc (by simp)
          · rw [assembleProductTail_cards] at hc
            exact absurd hc (by simp)

theorem validate_selected_subset (p : AIOutput) (wl : List String) (o : AIOutput)
    (l : List String) (hv : validateAIOutput p wl = some o)
    (hint : o.intent = some "product_recommendation") (hsel : o.selected_skus = some l) :
    ∀ x ∈ l, x ∈ wl := by
  intro x hx
  unfold validateAIOutput at hv
  split at hv
  · exact absurd hv (by simp)
  · split at hv
    · cases hv
      simp only at hsel
      cases hsel
      have := (List.mem_filter.mp hx).2
      simpa using this
    · rename_i hcond
      cases hv
      rw [hint, hsel] at hcond
      simp at hcond

/-- C1: whitelist soundness.  In every `/chat` turn, every SKU whose product
card appears in the rendered response was a member of the session's current
whitelist at the time of rendering (the whitelist is unchanged on the
card-rendering path, so "at the time of rendering" is the whitelist the turn
started with) — whatever the model output, `validateAIOutput` strips every
SKU outside the whitelist before `assembleResponse` renders cards. -/
theorem whitelist_soundness (env : Env) (shopify : String → Option ShopifyData)
    (rand : Nat) (s : Session) (msg : String) (model : ModelMessage) (c : Card)
    (hc : c ∈ (processTurn env shopify rand s msg model).1.cards) :
    c.sku ∈ s.currentWhitelist := by
  unfold processTurn at hc
  split at hc
  · exact absurd hc (by simp [TurnResult.cards])
  · dsimp only at hc
    split at hc
    · exact absurd hc (by simp [TurnResult.cards])
    · cases model with
      | toolCalls cs => exact absurd hc (by simp [TurnResult.cards])
      | content ct =>
        unfold contentTurn at hc
        dsimp only at hc
        rw [show ∀ (a : AssembleResult) (o : AIOutput), (TurnResult.ok a o).cards = a.cards
          from fun _ _ => rfl] at hc
        rcases hv : validateAIOutput (parseAIOutput ct (preprocessSession s msg))
            (preprocessSession s msg).currentWhitelist with _ | o <;> rw [hv] at hc
        · obtain ⟨hint, l, hsel, hmem⟩ := assembleResponse_cards env shopify rand _ _ c hc
          exact absurd hsel (by simp [postValidationFallback])
        · obtain ⟨hint, l, hsel, hmem⟩ := assembleResponse_cards env shopify rand _ _ c hc
          have := validate_selected_subset _ _ _ _ hv hint hsel c.sku hmem
          rwa [preprocess_whitelist] at this

/-- Witness objects for C1: a model output selecting one whitelisted and one
hallucinated SKU against a session whose whitelist holds only the former. -/
def wlSession : Session := { currentWhitelist := ["P9-SET"] }

def wlOutput : AIOutput :=
  { intent := some "product_recommendation", selected_skus := some ["P9-SET", "FAKE-SKU"] }

def wlModel : ModelMessage := .content { directParse := some (JsValue.obj wlOutput) }

def dummyCard : Card := ⟨"", "", 0, 0, ""⟩

set_option maxRecDepth 100000 in
theorem whitelist_soundness_witness :
    ((processTurn envSeat (fun _ => none) 0 wlSession "show me" wlModel).1.cards.headD dummyCard)
      ∈ (processTurn envSeat (fun _ => none) 0 wlSession "show me" wlModel).1.cards ∧
    ((processTurn envSeat (fun _ => none) 0 wlSession "show me" wlModel).1.cards.headD
        dummyCard).sku ∈ wlSession.currentWhitelist :=
  ⟨by decide, whitelist_soundness envSeat (fun _ => none) 0 wlSession "show me" wlModel _
    (by decide)⟩

/-! ### C6: malformed-model-output resilience -/

theorem applySentiment_productsShown (c : Commercial) (st : Sentiment) :
    (applySentiment c st).productsShown = c.productsShown := by
  unfold applySentiment
  dsimp only
  repeat' split
  all_goals rfl

theorem preprocess_productsShown (s : Session) (msg : String) :
    (preprocessSession s msg).commercial.productsShown = s.commercial.productsShown :=
  applySentiment_productsShown _ _

/-- `validateAIOutput` returns an output unchanged whenever its intent is
truthy and its selected SKUs (if any) are already inside the whitelist. -/
theorem validate_of_subset (o : AIOutput) (wl : List String)
    (hint : jsTruthy o.intent = true)
    (hsub : ∀ l, o.selected_skus = some l → ∀ x ∈ l, x ∈ wl) :
    validateAIOutput o wl = some o := by
  unfold validateAIOutput
  rw [hint]
  dsimp only [Bool.not_true]
  rw [if_neg (by simp)]
  split
  · rename_i hcond
    rcases hsel : o.selected_skus with _ | l
    · rw [hsel] at hcond
      simp at hcond
    · simp only [Option.getD_some]
      rw [List.filter_eq_self.mpr (fun x hx => List.elem_eq_true_of_mem (hsub l hsel x hx))]
      rw [← hsel]
  · rfl

theorem layer4Fallback_intent (s : Session) :
    jsTruthy (layer4Fallback s).intent = true := by
  simp only [layer4Fallback]
  repeat' split
  all_goals rfl

theorem layer4Fallback_skus (s : Session) (l : List String)
    (h : (layer4Fallback s).selected_skus = some l) : ∀ x ∈ l, x ∈ s.currentWhitelist := by
  simp only [layer4Fallback] at h
  split at h
  · dsimp only at h
    cases h
    exact fun x hx => List.mem_of_mem_take hx
  · split at h <;> simp at h

theorem validate_layer4 (s : Session) :
    validateAIOutput (layer4Fallback s) s.currentWhitelist = some (layer4Fallback s) :=
  validate_of_subset _ _ (layer4Fallback_intent s) (layer4Fallback_skus s)

theorem postValidationFallback_intent (s : Session) :
    jsTruthy (postValidationFallback s).intent = true := rfl

/-- C6: for each of the three malformed model-reply shapes — a non-JSON
string (no layer recovers any JSON), a JSON object missing `intent`, and a
JSON array — the turn handler returns a normal response whose structured
output is the deterministic context-aware fallback: the layer-4 fallback for
the unparseable string, and the post-validation clarification fallback for
the intent-less object and the array; each fallback has a valid (truthy)
intent, and the handler does not throw (the result is an `ok` response, not
the 500 catch). -/
theorem malformed_output_fallback (env : Env) (shopify : String → Option ShopifyData)
    (rand : Nat) (s : Session) (msg : String) (o : AIOutput)
    (cb om cb2 om2 : Option JsValue)
    (hmsg : msg ≠ "")
    (hfast : (detectCustomerSentiment msg).readyToBuy = false ∨ s.commercial.productsShown = [])
    (hobj : o.intent = none) :
    (processTurn env shopify rand s msg (.content ⟨none, none, none⟩)).1.aiOutput? =
      some (layer4Fallback (preprocessSession s msg)) ∧
    (processTurn env shopify rand s msg (.content ⟨some (.obj o), cb, om⟩)).1.aiOutput? =
      some (postValidationFallback (preprocessSession s msg)) ∧
    (processTurn env shopify rand s msg (.content ⟨some .arr, cb2, om2⟩)).1.aiOutput? =
      some (postValidationFallback (preprocessSession s msg)) ∧
    jsTruthy (layer4Fallback (preprocessSession s msg)).intent = true ∧
    jsTruthy (postValidationFallback (preprocessSession s msg)).intent = true := by
  have hcond : ¬(((detectCustomerSentiment msg).readyToBuy &&
      decide ((preprocessSession s msg).commercial.productsShown.length > 0)) = true) := by
    rcases hfast with h | h
    · simp [h]
    · simp [preprocess_productsShown, h]
  have hmsg' : ¬((msg == "") = true) := by simpa using hmsg
  refine ⟨?_, ?_, ?_, layer4Fallback_intent _, postValidationFallback_intent _⟩
  · unfold processTurn
    rw [if_neg hmsg']
    dsimp only
    rw [if_neg hcond]
    unfold contentTurn
    dsimp only
    rw [show parseAIOutput ⟨none, none, none⟩ (preprocessSession s msg) =
      layer4Fallback (preprocessSession s msg) from rfl]
    rw [validate_layer4]
    rfl
  · unfold processTurn
    rw [if_neg hmsg']
    dsimp only
    rw [if_neg hcond]
    unfold contentTurn
    dsimp only
    rw [show parseAIOutput ⟨some (.obj o), cb, om⟩ (preprocessSession s msg) = o from rfl]
    rw [show validateAIOutput o (preprocessSession s msg).currentWhitelist = none from by
      simp [validateAIOutput, jsTruthy, hobj]]
    rfl
  · unfold processTurn
    rw [if_neg hmsg']
    dsimp only
    rw [if_neg hcond]
    unfold contentTurn
    dsimp only
    rfl

/-- Witness for C6 at concrete inputs. -/
def c6Obj : AIOutput := { response_text := some "free text with no intent" }

theorem malformed_output_fallback_witness :
    (processTurn {} (fun _ => none) 0 initialSession "hello" (.content ⟨none, none, none⟩)).1.aiOutput?
      = some (layer4Fallback (preprocessSession initialSession "hello")) ∧
    (processTurn {} (fun _ => none) 0 initialSession "hello"
        (.content ⟨some (.obj c6Obj), none, none⟩)).1.aiOutput?
      = some (postValidationFallback (preprocessSession initialSession "hello")) ∧
    (processTurn {} (fun _ => none) 0 initialSession "hello"
        (.content ⟨some .arr, none, none⟩)).1.aiOutput?
      = some (postValidationFallback (preprocessSession initialSession "hello")) := by
  have h := malformed_output_fallback {} (fun _ => none) 0 initialSession "hello" c6Obj
    none none none none (by decide) (Or.inr (by decide)) (by decide)
  exact ⟨h.1, h.2.1, h.2.2.1⟩

/-! ### C8: the purchase-intent fast path -/

theorem purchaseLevel3_readyToBuy (msg : String)
    (h : (detectCustomerSentiment msg).purchaseIntentLevel = 3) :
    (detectCustomerSentiment msg).readyToBuy = true := by
  unfold detectCustomerSentiment at *
  dsimp only at *
  split_ifs at h with h1 h2 h3
  · exact h1
  all_goals simp_all

/-- Counterexample to C8 as stated: the message "buy now" is classified at the
highest purchase-intent level (3), but on a session with no products shown the
handler does not short-circuit to the closing flow — it proceeds to the model
call (here a plain content reply) and answers through the normal path. -/
theorem purchase_intent_counterexample :
    (detectCustomerSentiment "buy now").purchaseIntentLevel = 3 ∧
    initialSession.commercial.productsShown = [] ∧
    (processTurn {} (fun _ => none) 0 initialSession "buy now"
      (.content {})).1.isClosing = false := by
  decide

/-- C8 (amended): whenever the classifier assigns the highest purchase-intent
level (3, i.e. a ready-to-buy phrase is present) *and at least one product has
been shown in the session*, the turn short-circuits to the closing/checkout
response built by `buildClosingResponse`, bypassing the model entirely (the
result does not depend on the model reply at all). -/
theorem purchase_intent_fast_path (env : Env) (shopify : String → Option ShopifyData)
    (rand : Nat) (s : Session) (msg : String) (model : ModelMessage)
    (hlvl : (detectCustomerSentiment msg).purchaseIntentLevel = 3)
    (hshown : s.commercial.productsShown ≠ [])
    (hmsg : msg ≠ "") :
    (processTurn env shopify rand s msg model).1 =
      .closing (buildClosingResponse env (preprocessSession s msg)) := by
  unfold processTurn
  rw [if_neg (by simpa using hmsg)]
  dsimp only
  have hc : ((detectCustomerSentiment msg).readyToBuy &&
      decide ((preprocessSession s msg).commercial.productsShown.length > 0)) = true := by
    rw [purchaseLevel3_readyToBuy msg hlvl]
    simp only [preprocess_productsShown, Bool.true_and, decide_eq_true_eq]
    exact List.length_pos.mpr hshown
  rw [if_pos hc]

/-- Witness for the amended C8. -/
def boughtSession : Session := { commercial := { productsShown := ["P9-SET"] } }

theorem purchase_intent_fast_path_witness :
    (processTurn envSeat (fun _ => none) 0 boughtSession "buy now" (.content {})).1 =
      .closing (buildClosingResponse envSeat (preprocessSession boughtSession "buy now")) :=
  purchase_intent_fast_path envSeat (fun _ => none) 0 boughtSession "buy now" (.content {})
    (by decide) (by decide) (by decide)

/-! ### C9: the bundle-offer cooldown after a decline -/

theorem trackOne_bundleDeclined (env : Env) (c : Commercial) (sku : String) :
    (trackOne env c sku).bundleDeclined = c.bundleDeclined := by
  unfold trackOne
  dsimp only
  repeat' split
  all_goals rfl

theorem foldl_trackOne_bundleDeclined (env : Env) (skus : List String) :
    ∀ c : Commercial, (skus.foldl (trackOne env) c).bundleDeclined = c.bundleDeclined := by
  induction skus with
  | nil => intro c; rfl
  | cons sku rest ih =>
    intro c
    rw [List.foldl_cons, ih, trackOne_bundleDeclined]

theorem trackProducts_bundleDeclined (env : Env) (o : AIOutput) (c : Commercial) :
    (trackProducts env o c).bundleDeclined = c.bundleDeclined := by
  unfold trackProducts
  split
  · exact foldl_trackOne_bundleDeclined env _ c
  · rfl

theorem applySentiment_bundleDeclined_mono (c : Commercial) (st : Sentiment)
    (h : c.bundleDeclined = true) : (applySentiment c st).bundleDeclined = true := by
  unfold applySentiment
  dsimp only
  repeat' split
  all_goals first | rfl | exact h

theorem preprocess_bundleDeclined_mono (s : Session) (msg : String)
    (h : s.commercial.bundleDeclined = true) :
    (preprocessSession s msg).commercial.bundleDeclined = true :=
  applySentiment_bundleDeclined_mono _ _ h

theorem applySentiment_sets_declined (c : Commercial) (st : Sentiment)
    (hd : st.decline = true) (hl : c.lastOfferType = some "bundle") :
    (applySentiment c st).bundleDeclined = true := by
  unfold applySentiment
  dsimp only
  simp only [hd, if_true]
  repeat' split
  all_goals simp_all [hl]

theorem eligibility_declined (s : Session) (h : s.commercial.bundleDeclined = true) :
    (checkBundleEligibility s).eligible = false := by
  unfold checkBundleEligibility
  dsimp only
  split
  · rfl
  · have hc : (commerceRulesBundle.stopAfterDecline && s.commercial.bundleDeclined) = true := by
      simp [commerceRulesBundle, h]
    rw [if_pos hc]

theorem assembleProductTail_declined (env : Env) (rand : Nat) (s : Session)
    (m : Option String) (parts : List String) (cards : List Card)
    (h : s.commercial.bundleDeclined = true) :
    (assembleProductTail env rand s m parts cards).1.bundleOffer = none ∧
    (assembleProductTail env rand s m parts cards).2.commercial.bundleDeclined = true := by
  unfold assembleProductTail
  rcases m with _ | mk
  · exact ⟨rfl, h⟩
  · dsimp only
    rw [eligibility_declined s h]
    rw [if_neg (by simp)]
    repeat' split
    all_goals exact ⟨rfl, h⟩

theorem assembleResponse_declined (env : Env) (shopify : String → Option ShopifyData)
    (rand : Nat) (o : AIOutput) (s : Session) (h : s.commercial.bundleDeclined = true) :
    (assembleResponse env shopify rand o s).1.bundleOffer = none ∧
    (assembleResponse env shopify rand o s).2.commercial.bundleDeclined = true := by
  simp only [assembleResponse]
  repeat' split
  all_goals first
    | exact ⟨rfl, h⟩
    | exact assembleProductTail_declined env rand s _ _ _ h

theorem contentTurn_declined (env : Env) (shopify : String → Option ShopifyData) (rand : Nat)
    (s : Session) (c : ModelContent) (msg : String)
    (h : s.commercial.bundleDeclined = true) :
    (contentTurn env shopify rand s c msg).1.bundleOffered = false ∧
    (contentTurn env shopify rand s c msg).2.commercial.bundleDeclined = true := by
  unfold contentTurn
  dsimp only
  constructor
  · show ((assembleResponse env shopify rand _ s).1.bundleOffer).isSome = false
    rw [(assembleResponse_declined env shopify rand _ s h).1]
    rfl
  · split
    all_goals
      rw [trackProducts_bundleDeclined]
      exact (assembleResponse_declined env shopify rand _ s h).2

theorem applyToolCall_commercial (env : Env) (s : Session) (c : ToolCall) :
    (applyToolCall env s c).commercial = s.commercial := by
  cases c <;> rfl

theorem processToolCalls_commercial (env : Env) (calls : List ToolCall) :
    ∀ s : Session, (processToolCalls env s calls).commercial = s.commercial := by
  induction calls with
  | nil => intro s; rfl
  | cons c cs ih =>
    intro s
    have hfold : processToolCalls env s (c :: cs) =
        processToolCalls env (applyToolCall env s c) cs := rfl
    rw [hfold, ih, applyToolCall_commercial]

theorem processTurn_declined (env : Env) (shopify : String → Option ShopifyData) (rand : Nat)
    (s : Session) (msg : String) (model : ModelMessage)
    (h : s.commercial.bundleDeclined = true) :
    (processTurn env shopify rand s msg model).1.bundleOffered = false ∧
    (processTurn env shopify rand s msg model).2.commercial.bundleDeclined = true := by
  unfold processTurn
  split
  · exact ⟨rfl, h⟩
  · dsimp only
    have hpre := preprocess_bundleDeclined_mono s msg h
    split
    · exact ⟨rfl, hpre⟩
    · cases model with
      | toolCalls cs =>
        refine ⟨rfl, ?_⟩
        rw [processToolCalls_commercial env cs (preprocessSession s msg)]
        exact hpre
      | content c => exact contentTurn_declined env shopify rand _ c msg hpre

theorem runTurns_declined (env : Env) (ts : List TurnIn) :
    ∀ s : Session, s.commercial.bundleDeclined = true →
      (∀ r ∈ (runTurns env s ts).1, r.bundleOffered = false) ∧
      (runTurns env s ts).2.commercial.bundleDeclined = true := by
  induction ts with
  | nil =>
    intro s h
    exact ⟨fun r hr => absurd hr (by simp [runTurns]), h⟩
  | cons t ts ih =>
    intro s h
    have hstep := processTurn_declined env t.shopify t.rand s t.message t.model h
    have hrest := ih (processTurn env t.shopify t.rand s t.message t.model).2 hstep.2
    constructor
    · intro r hr
      simp only [runTurns] at hr
      rcases List.mem_cons.mp hr with rfl | hr'
      · exact hstep.1
      · exact hrest.1 r hr'
    · simpa [runTurns] using hrest.2

/-- C9: offer cooldown.  Once a bundle offer has been made (the session's
`lastOfferType` is `bundle`) and a message classified as a decline arrives,
that turn sets `bundleDeclined`, and from then on no turn of the session —
whatever its message, model behaviour or randomness, and however many turns
follow — ever produces another bundle offer; the flag is never reset. -/
theorem bundle_decline_cooldown (env : Env) (shopify : String → Option ShopifyData)
    (rand : Nat) (s : Session) (msg : String) (model : ModelMessage) (ts : List TurnIn)
    (hdecl : (detectCustomerSentiment msg).decline = true)
    (hlast : s.commercial.lastOfferType = some "bundle")
    (hmsg : msg ≠ "") :
    (processTurn env shopify rand s msg model).2.commercial.bundleDeclined = true ∧
    (∀ r ∈ (runTurns env (processTurn env shopify rand s msg model).2 ts).1,
      r.bundleOffered = false) ∧
    (runTurns env (processTurn env shopify rand s msg model).2 ts).2.commercial.bundleDeclined
      = true := by
  have hpre : (preprocessSession s msg).commercial.bundleDeclined = true :=
    applySentiment_sets_declined s.commercial (detectCustomerSentiment msg) hdecl hlast
  have h1 : (processTurn env shopify rand s msg model).2.commercial.bundleDeclined = true := by
    unfold processTurn
    rw [if_neg (by simpa using hmsg)]
    dsimp only
    split
    · exact hpre
    · cases model with
      | toolCalls cs =>
        rw [processToolCalls_commercial env cs (preprocessSession s msg)]
        exact hpre
      | content c => exact (contentTurn_declined env shopify rand _ c msg hpre).2
  have h2 := runTurns_declined env ts _ h1
  exact ⟨h1, h2.1, h2.2⟩

/-- Witness for C9: a concrete declined session and one follow-up turn. -/
def declSession : Session :=
  { commercial := { lastOfferType := some "bundle", productsShown := ["P9-SET"] } }

def declTurnIn : TurnIn :=
  { message := "what else do you have", model := .content {}, rand := 0,
    shopify := fun _ => none }

theorem bundle_decline_cooldown_witness :
    (processTurn envSeat (fun _ => none) 0 declSession "no thanks" (.content {})).2.commercial.bundleDeclined = true ∧
    (∀ r ∈ (runTurns envSeat (processTurn envSeat (fun _ => none) 0 declSession "no thanks"
        (.content {})).2 [declTurnIn]).1, r.bundleOffered = false) ∧
    (runTurns envSeat (processTurn envSeat (fun _ => none) 0 declSession "no thanks"
        (.content {})).2 [declTurnIn]).2.commercial.bundleDeclined = true :=
  bundle_decline_cooldown envSeat (fun _ => none) 0 declSession "no thanks" (.content {})
    [declTurnIn] (by decide) (by decide) (by decide)

end Gwen
